import Mathlib

/-!
Shallow embedding of the authentication and session lifecycle module of the
Hospital-Management-Syste repository (file src/unnamed/part_004: the React
AuthProvider context built over axios).  Pure functions of the source are
translated directly; the browser globals the component mutates (the
localStorage token slot, the axios default Authorization header, the two
setTimeout handles held in refs) and the toast notices are made explicit as
fields of a ClientState record, and asynchronous network results are passed
in as explicit outcome values.  All times are in milliseconds as Nat.
-/

namespace HMS

/-- Shape of the user object the claims need: the role field read by
hasRole and hasAnyRole, and the firstName field used in welcome toasts. -/
structure User where
  role : String
  firstName : String
deriving DecidableEq, Repr

/-- The reducer state of AuthProvider (source lines 9 to 18). -/
structure AuthState where
  user : Option User
  token : Option String
  isAuthenticated : Bool
  loading : Bool
  error : Option String
  isInitialized : Bool
  sessionExpiry : Option Nat
  lastActivity : Nat
deriving DecidableEq, Repr

/-- The action types of AUTH_ACTIONS (source lines 21 to 36), with the
payloads each dispatch site supplies. -/
inductive AuthAction where
  | setInitialized
  | userLoading
  | userLoaded (payload : User)
  | loginSuccess (token : String) (user : User) (expiresIn : Option Nat)
  | registerSuccess (token : String) (user : User) (expiresIn : Option Nat)
  | tokenRefresh (token : String) (expiresIn : Option Nat)
  | authError (payload : String)
  | loginFail (payload : String)
  | registerFail (payload : String)
  | logout
  | logoutSilent
  | updateActivity
  | clearErrors
  | sessionWarning
deriving DecidableEq, Repr

/-- Translation of the JS expression
action.payload.expiresIn ? Date.now() + (action.payload.expiresIn * 1000) : null
(source lines 76 and 84); a missing expiresIn and a zero one are both falsy. -/
def expiryFrom (now : Nat) (expiresIn : Option Nat) : Option Nat :=
  match expiresIn with
  | some n => if n = 0 then none else some (now + n * 1000)
  | none => none

/-- The authReducer switch (source lines 39 to 146); the Date.now() value
read by the executing case is passed in as now. -/
def authReducer (now : Nat) (state : AuthState) : AuthAction → AuthState
  | .setInitialized => { state with isInitialized := true, loading := false }
  | .userLoading => { state with loading := true, error := none }
  | .userLoaded u =>
      { state with isAuthenticated := true, loading := false, user := some u,
                   error := none, isInitialized := true, lastActivity := now }
  | .loginSuccess tok u e =>
      { state with token := some tok, user := some u, isAuthenticated := true,
                   loading := false, error := none, isInitialized := true,
                   sessionExpiry := expiryFrom now e, lastActivity := now }
  | .registerSuccess tok u e =>
      { state with token := some tok, user := some u, isAuthenticated := true,
                   loading := false, error := none, isInitialized := true,
                   sessionExpiry := expiryFrom now e, lastActivity := now }
  | .tokenRefresh tok e =>
      { state with token := some tok, sessionExpiry := expiryFrom now e,
                   lastActivity := now }
  | .authError msg =>
      { state with token := none, user := none, isAuthenticated := false,
                   loading := false, error := some msg, isInitialized := true,
                   sessionExpiry := none }
  | .loginFail msg =>
      { state with token := none, user := none, isAuthenticated := false,
                   loading := false, error := some msg, isInitialized := true,
                   sessionExpiry := none }
  | .registerFail msg =>
      { state with token := none, user := none, isAuthenticated := false,
                   loading := false, error := some msg, isInitialized := true,
                   sessionExpiry := none }
  | .logout =>
      { state with token := none, user := none, isAuthenticated := false,
                   loading := false, error := none, isInitialized := true,
                   sessionExpiry := none }
  | .logoutSilent =>
      { state with token := none, user := none, isAuthenticated := false,
                   loading := false, error := none, sessionExpiry := none }
  | .updateActivity => { state with lastActivity := now }
  | .clearErrors => { state with error := none }
  | .sessionWarning =>
      { state with error := some "Session will expire soon. Please save your work." }

/-- The character class excluded by the regex classes of the email pattern:
JS whitespace (restricted to its ASCII members, the only ones that occur in
this development). -/
def jsIsSpace (c : Char) : Bool :=
  c = ' ' || c = '\t' || c = '\n' || c = '\r' || c = '\x0b' || c = '\x0c'

/-- A character admissible in every segment of the email pattern. -/
def emailChar (c : Char) : Bool := !jsIsSpace c && c != '@'

/-- Whether the list has a dot that is neither its first nor its last
character, which is exactly when it splits as two nonempty halves around a
literal dot. -/
def hasInnerDot (cs : List Char) : Bool := ((cs.drop 1).dropLast).contains '.'

/-- The test of the anchored email regex used by login and register (source
lines 334 and 389): one or more non space non at characters, a literal at
sign, one or more such characters, a literal dot, one or more such
characters.  Since no segment may contain an at sign, a match forces the
string to have exactly one, and the part after it must carry a dot with a
nonempty admissible prefix and suffix. -/
def emailTest (s : String) : Bool :=
  match s.toList.span (fun c => c != '@') with
  | (localPart, '@' :: rest) =>
      !localPart.isEmpty && localPart.all emailChar && rest.all emailChar &&
        hasInnerDot rest
  | _ => false

/-- The local input validation of login (source lines 385 to 392): empty
fields, then the email pattern.  There is no check on the password beyond
nonemptiness.  A some result is the message of the locally thrown Error;
none means the axios post is issued. -/
def loginValidationError (email password : String) : Option String :=
  if email = "" || password = "" then some "Email and password are required"
  else if !emailTest email then some "Please enter a valid email address"
  else none

/-- Whether login reaches the network for these inputs. -/
def loginIssuesRequest (email password : String) : Bool :=
  (loginValidationError email password).isNone

/-- The form data register receives (source line 324). -/
structure RegisterForm where
  email : String
  password : String
  firstName : String
  lastName : String
  role : String
deriving DecidableEq, Repr

/-- The local input validation of register (source lines 329 to 342):
required fields, the email pattern, then the minimum password length of
eight characters. -/
def registerValidationError (f : RegisterForm) : Option String :=
  if f.email = "" || f.password = "" || f.firstName = "" || f.lastName = "" ||
      f.role = "" then
    some "All required fields must be filled"
  else if !emailTest f.email then some "Please enter a valid email address"
  else if f.password.length < 8 then
    some "Password must be at least 8 characters long"
  else none

/-- hasRole (source lines 557 to 559): state.user?.role === role, where a
missing user makes the optional chain undefined and the strict comparison
false. -/
def hasRole (user : Option User) (role : String) : Bool :=
  user.map User.role == some role

/-- hasAnyRole (source lines 562 to 564): roles.includes(state.user?.role).
A JS caller may place undefined in the list, hence entries of type Option
String; user?.role is none exactly when no user is loaded. -/
def hasAnyRole (user : Option User) (roles : List (Option String)) : Bool :=
  roles.contains (user.map User.role)

/-- What the role gating wrapper renders. -/
inductive RenderedView where
  | accessDenied
  | component
deriving DecidableEq, Repr

/-- The withRoleAccess higher order component (source lines 630 to 645). -/
def withRoleAccess (allowedRoles : List (Option String)) (user : Option User) :
    RenderedView :=
  if user.isNone || !hasAnyRole user allowedRoles then .accessDenied
  else .component

/-- Accumulator form of the JS split at a separator character. -/
def splitCharAux (sep : Char) : List Char → List Char → List String
  | [], acc => [String.mk acc.reverse]
  | c :: rest, acc =>
    if c = sep then String.mk acc.reverse :: splitCharAux sep rest []
    else splitCharAux sep rest (c :: acc)

/-- The JS string split at a single character separator, as
token.split(String.fromCharCode(sep)) behaves: the pieces between every
occurrence, with empty pieces kept, and the empty string splitting to a
single empty piece. -/
def jsSplitChar (sep : Char) (s : String) : List String :=
  splitCharAux sep s.toList []

/-- Value of a standard base64 alphabet character. -/
def b64Val (c : Char) : Option Nat :=
  if 'A' ≤ c && c ≤ 'Z' then some (c.toNat - 65)
  else if 'a' ≤ c && c ≤ 'z' then some (c.toNat - 97 + 26)
  else if '0' ≤ c && c ≤ '9' then some (c.toNat - 48 + 52)
  else if c = '+' then some 62
  else if c = '/' then some 63
  else none

/-- Decode a padding free base64 character list to bytes: full groups of
four characters give three bytes, a trailing group of two or three gives
one or two bytes with the leftover bits discarded, and a trailing group of
one is invalid. -/
def b64Decode : List Char → Option (List Nat)
  | [] => some []
  | [_] => none
  | [a, b] => do
      let va ← b64Val a
      let vb ← b64Val b
      pure [(va * 64 + vb) / 16]
  | [a, b, c] => do
      let va ← b64Val a
      let vb ← b64Val b
      let vc ← b64Val c
      let n := (va * 64 + vb) * 64 + vc
      pure [n / 1024, n / 4 % 256]
  | a :: b :: c :: d :: rest => do
      let va ← b64Val a
      let vb ← b64Val b
      let vc ← b64Val c
      let vd ← b64Val d
      let n := ((va * 64 + vb) * 64 + vc) * 64 + vd
      let tl ← b64Decode rest
      pure (n / 65536 :: n / 256 % 256 :: n % 256 :: tl)

/-- The ASCII whitespace the forgiving base64 decode removes first. -/
def asciiWs (c : Char) : Bool :=
  c = '\x09' || c = '\x0a' || c = '\x0c' || c = '\x0d' || c = ' '

/-- Strip up to two trailing padding characters when the length is a
multiple of four. -/
def stripB64Pad (cs : List Char) : List Char :=
  if cs.length % 4 = 0 then
    match cs.reverse with
    | '=' :: '=' :: rest => rest.reverse
    | '=' :: rest => rest.reverse
    | _ => cs
  else cs

/-- The browser atob builtin, modelled by the WHATWG forgiving base64
decode it is specified as: remove ASCII whitespace, strip trailing padding,
reject a leftover length of one mod four and any character outside the
standard alphabet, and return the byte sequence as Latin-1 characters.
A none result models the thrown InvalidCharacterError. -/
def atob (s : String) : Option String :=
  let cs := stripB64Pad (s.toList.filter (fun c => !asciiWs c))
  if cs.length % 4 = 1 then none
  else (b64Decode cs).map (fun bytes => String.mk (bytes.map Char.ofNat))

/-- An exact decimal number: the value is mant times ten to the exp10,
negated when neg holds.  This carries every literal of the JSON number
grammar exactly; JSON.parse itself rounds to IEEE binary64, which agrees
with the exact value on every integer of magnitude below two to the fifty
third power (all the values the claims involve). -/
structure JNum where
  neg : Bool
  mant : Nat
  exp10 : Int
deriving DecidableEq, Repr

/-- The exact rational value of a decimal. -/
def JNum.toRat (a : JNum) : ℚ :=
  if a.neg then -((a.mant : ℚ) * (10 : ℚ) ^ a.exp10)
  else (a.mant : ℚ) * (10 : ℚ) ^ a.exp10

/-- Whether the decimal exceeds nowMs divided by one thousand, the exact
comparison of the value against Date.now() / 1000, computed by cross
multiplication in the integers (the bridging theorem JNum.gtMs_eq below
identifies it with the rational comparison). -/
def JNum.gtMsOver1000 (a : JNum) (nowMs : Nat) : Bool :=
  if a.neg then false
  else
    match a.exp10 with
    | .ofNat e => decide (a.mant * 10 ^ e * 1000 > nowMs)
    | .negSucc k => decide (a.mant * 1000 > nowMs * 10 ^ (k + 1))

/-- JSON values as JSON.parse produces them. -/
inductive Json where
  | null
  | bool (b : Bool)
  | num (q : JNum)
  | str (s : String)
  | arr (elems : List Json)
  | obj (fields : List (String × Json))

/-- The whitespace the JSON grammar allows between tokens. -/
def jsonWs (c : Char) : Bool := c = ' ' || c = '\t' || c = '\n' || c = '\r'

/-- Skip JSON whitespace. -/
def skipWs (cs : List Char) : List Char := cs.dropWhile jsonWs

/-- Numeric value of a digit list. -/
def digitsToNat (cs : List Char) : Nat :=
  cs.foldl (fun a c => a * 10 + (c.toNat - 48)) 0

/-- Value of a hexadecimal digit. -/
def hexVal (c : Char) : Option Nat :=
  if '0' ≤ c && c ≤ '9' then some (c.toNat - 48)
  else if 'a' ≤ c && c ≤ 'f' then some (c.toNat - 87)
  else if 'A' ≤ c && c ≤ 'F' then some (c.toNat - 55)
  else none

/-- Parse an optional exponent part: base ten exponent sign and digits. -/
def parseExpPart : List Char → Option (Option (Bool × Nat) × List Char)
  | [] => some (none, [])
  | c :: rest =>
    if c = 'e' || c = 'E' then
      let signAndRest : Bool × List Char :=
        match rest with
        | '-' :: r => (true, r)
        | '+' :: r => (false, r)
        | r => (false, r)
      let ds := signAndRest.2.takeWhile Char.isDigit
      let r2 := signAndRest.2.dropWhile Char.isDigit
      if ds.isEmpty then none else some (some (signAndRest.1, digitsToNat ds), r2)
    else some (none, c :: rest)

/-- Assemble a decimal from its parsed pieces: sign, integer digits,
fraction digits, optional exponent. -/
def assembleDecimal (neg : Bool) (ip frac : List Char) (e : Option (Bool × Nat)) :
    JNum :=
  let baseExp : Int :=
    match e with
    | none => 0
    | some (eneg, ev) => if eneg then -(ev : Int) else (ev : Int)
  ⟨neg, digitsToNat (ip ++ frac), baseExp - (frac.length : Int)⟩

/-- Parse a number of the JSON grammar: optional minus, an integer part
without leading zeros, optional fraction, optional exponent. -/
def parseJsonNumber (cs : List Char) : Option (JNum × List Char) :=
  let signAndRest : Bool × List Char :=
    match cs with
    | '-' :: r => (true, r)
    | r => (false, r)
  let ip := signAndRest.2.takeWhile Char.isDigit
  let cs2 := signAndRest.2.dropWhile Char.isDigit
  if ip.isEmpty then none
  else if 1 < ip.length && ip.head? = some '0' then none
  else
    let fracAndRest : Option (List Char) × List Char :=
      match cs2 with
      | '.' :: r => (some (r.takeWhile Char.isDigit), r.dropWhile Char.isDigit)
      | r => (none, r)
    match fracAndRest.1 with
    | some [] => none
    | _ =>
      match parseExpPart fracAndRest.2 with
      | none => none
      | some (e, cs4) =>
        some (assembleDecimal signAndRest.1 ip ((fracAndRest.1).getD []) e, cs4)

/-- Parse the body of a JSON string after its opening quote, handling the
escape sequences of the grammar and rejecting raw control characters.
Returns the content and the input after the closing quote. -/
def parseJsonStringBody : Nat → List Char → Option (List Char × List Char)
  | 0, _ => none
  | _, [] => none
  | fuel + 1, c :: rest =>
    if c = '"' then some ([], rest)
    else if c = '\\' then
      match rest with
      | 'u' :: h1 :: h2 :: h3 :: h4 :: r => do
          let v1 ← hexVal h1
          let v2 ← hexVal h2
          let v3 ← hexVal h3
          let v4 ← hexVal h4
          let code := ((v1 * 16 + v2) * 16 + v3) * 16 + v4
          let tl ← parseJsonStringBody fuel r
          pure (Char.ofNat code :: tl.1, tl.2)
      | e :: r =>
          let ec : Option Char :=
            if e = '"' then some '"'
            else if e = '\\' then some '\\'
            else if e = '/' then some '/'
            else if e = 'b' then some '\x08'
            else if e = 'f' then some '\x0c'
            else if e = 'n' then some '\n'
            else if e = 'r' then some '\r'
            else if e = 't' then some '\t'
            else none
          match ec with
          | some ch =>
              (parseJsonStringBody fuel r).map (fun tl => (ch :: tl.1, tl.2))
          | none => none
      | [] => none
    else if c.toNat < 32 then none
    else (parseJsonStringBody fuel rest).map (fun tl => (c :: tl.1, tl.2))

mutual

/-- Parse one JSON value, fuel bounded. -/
def parseJsonValue : Nat → List Char → Option (Json × List Char)
  | 0, _ => none
  | fuel + 1, cs =>
    match skipWs cs with
    | 'n' :: 'u' :: 'l' :: 'l' :: rest => some (.null, rest)
    | 't' :: 'r' :: 'u' :: 'e' :: rest => some (.bool true, rest)
    | 'f' :: 'a' :: 'l' :: 's' :: 'e' :: rest => some (.bool false, rest)
    | '"' :: rest =>
        (parseJsonStringBody (rest.length + 1) rest).map
          (fun p => (.str (String.mk p.1), p.2))
    | '[' :: rest =>
        (match skipWs rest with
         | ']' :: r => some (.arr [], r)
         | _ => (parseJsonElems fuel rest).map (fun p => (.arr p.1, p.2)))
    | '{' :: rest =>
        (match skipWs rest with
         | '}' :: r => some (.obj [], r)
         | _ => (parseJsonMembers fuel rest).map (fun p => (.obj p.1, p.2)))
    | other => (parseJsonNumber other).map (fun p => (.num p.1, p.2))

/-- Parse the elements of a nonempty JSON array up to its closing bracket. -/
def parseJsonElems : Nat → List Char → Option (List Json × List Char)
  | 0, _ => none
  | fuel + 1, cs =>
    match parseJsonValue fuel cs with
    | none => none
    | some (v, r) =>
      match skipWs r with
      | ',' :: r2 => (parseJsonElems fuel r2).map (fun p => (v :: p.1, p.2))
      | ']' :: r2 => some ([v], r2)
      | _ => none

/-- Parse the members of a nonempty JSON object up to its closing brace. -/
def parseJsonMembers : Nat → List Char → Option (List (String × Json) × List Char)
  | 0, _ => none
  | fuel + 1, cs =>
    match skipWs cs with
    | '"' :: rest =>
      match parseJsonStringBody (rest.length + 1) rest with
      | none => none
      | some (key, r) =>
        match skipWs r with
        | ':' :: r2 =>
          match parseJsonValue fuel r2 with
          | none => none
          | some (v, r3) =>
            match skipWs r3 with
            | ',' :: r4 =>
                (parseJsonMembers fuel r4).map
                  (fun p => ((String.mk key, v) :: p.1, p.2))
            | '}' :: r4 => some ([(String.mk key, v)], r4)
            | _ => none
        | _ => none
    | _ => none

end

/-- The JSON.parse builtin on the JSON grammar; none models the thrown
SyntaxError.  The fuel is sufficient because every recursion level consumes
at least one input character. -/
def jsonParse (s : String) : Option Json :=
  match parseJsonValue (s.length + 1) s.toList with
  | some (v, rest) => if skipWs rest = [] then some v else none
  | none => none

/-- The member access payload.exp performed on source line 191: it throws
on a null payload (modelled as the error case), yields undefined (none) on
any non object and on an absent key, and on an object follows JSON.parse in
keeping the last duplicate of a key. -/
def expAccess : Json → Except Unit (Option Json)
  | .null => .error ()
  | .obj fields =>
      .ok (((fields.filter (fun f => f.1 == "exp")).map Prod.snd).getLast?)
  | _ => .ok none

/-- Trim JS whitespace from both ends. -/
def jsTrim (s : List Char) : List Char :=
  (((s.dropWhile jsIsSpace).reverse).dropWhile jsIsSpace).reverse

/-- The decimal fragment of the JS string to number coercion: optional
sign, digits with optional fraction and optional exponent; the empty or all
whitespace string converts to zero.  Hexadecimal and Infinity forms, which
no claim involves, convert to none (NaN). -/
def jsDecimal (cs : List Char) : Option JNum :=
  let signAndRest : Bool × List Char :=
    match cs with
    | '-' :: r => (true, r)
    | '+' :: r => (false, r)
    | r => (false, r)
  let ip := signAndRest.2.takeWhile Char.isDigit
  let cs2 := signAndRest.2.dropWhile Char.isDigit
  let fracAndRest : List Char × List Char :=
    match cs2 with
    | '.' :: r => (r.takeWhile Char.isDigit, r.dropWhile Char.isDigit)
    | r => ([], r)
  if ip.isEmpty && fracAndRest.1.isEmpty then none
  else
    match parseExpPart fracAndRest.2 with
    | none => none
    | some (e, cs4) =>
      if !cs4.isEmpty then none
      else some (assembleDecimal signAndRest.1 ip fracAndRest.1 e)

/-- String to number coercion for the comparison operator. -/
def jsStringToNum (s : String) : Option JNum :=
  let cs := jsTrim s.toList
  if cs.isEmpty then some ⟨false, 0, 0⟩ else jsDecimal cs

/-- The JS comparison v > Date.now() / 1000 applied to the decoded exp
claim, following the ToNumber coercions the greater than operator performs:
an absent claim (undefined) is NaN hence false, null is zero, booleans are
zero or one, strings go through the decimal coercion, and composite values
are treated as NaN (exact for objects; arrays of length other than one also
coerce to NaN, and the claims involve no arrays). -/
def jsGT (v : Option Json) (nowMs : Nat) : Bool :=
  match v with
  | none => false
  | some .null => JNum.gtMsOver1000 ⟨false, 0, 0⟩ nowMs
  | some (.bool b) => JNum.gtMsOver1000 ⟨false, if b then 1 else 0, 0⟩ nowMs
  | some (.num n) => n.gtMsOver1000 nowMs
  | some (.str s) =>
      match jsStringToNum s with
      | some n => n.gtMsOver1000 nowMs
      | none => false
  | some (.arr _) => false
  | some (.obj _) => false

/-- isTokenValid (source lines 181 to 196): reject a falsy token, require
exactly three dot separated segments (with no constraint on their being
nonempty), decode the middle segment with atob and JSON.parse, and accept
exactly when the exp claim compares greater than Date.now() / 1000.  Every
exception along the way (atob, JSON.parse, member access on null) is caught
and yields false.  The function is pure: no network request is involved. -/
def isTokenValid (token : String) (nowMs : Nat) : Bool :=
  if token = "" then false
  else if (jsSplitChar '.' token).length ≠ 3 then false
  else
    match atob (((jsSplitChar '.' token).get? 1).getD "") with
    | none => false
    | some decoded =>
      match jsonParse decoded with
      | none => false
      | some payload =>
        match expAccess payload with
        | .error _ => false
        | .ok v => jsGT v nowMs

/-- Kind of a scheduled timer: the five minute warning or the auto
logout at the session timeout. -/
inductive TimerKind where
  | warning
  | expiry
deriving DecidableEq, Repr

/-- A pending setTimeout: its id, what it will do, and its scheduled
absolute firing time. -/
structure TimerEntry where
  id : Nat
  kind : TimerKind
  fireAt : Nat
deriving DecidableEq, Repr

/-- The client as the claims see it: the reducer state plus the browser
globals the component mutates.  storedToken is the localStorage token slot;
attachedAuth the axios default Authorization header (holding the raw token
of the Bearer value); timers the pending setTimeout entries with
sessionTimeoutRef and activityTimeoutRef the two ref cells (source lines
151 and 152; per the source the first holds the warning timer and the
second the auto logout timer, and neither ref is ever nulled); nextId
supplies fresh timer ids; toasts accumulates the emitted notices. -/
structure ClientState where
  auth : AuthState
  storedToken : Option String
  attachedAuth : Option String
  timers : List TimerEntry
  sessionTimeoutRef : Option Nat
  activityTimeoutRef : Option Nat
  nextId : Nat
  toasts : List String
deriving DecidableEq, Repr

/-- SESSION_TIMEOUT (source line 156): thirty minutes in ms. -/
def SESSION_TIMEOUT : Nat := 30 * 60 * 1000

/-- WARNING_TIME (source line 157): five minutes in ms. -/
def WARNING_TIME : Nat := 5 * 60 * 1000

/-- setAuthToken (source lines 161 to 178).  Returns the updated client and
the boolean result: a nonempty string splitting into exactly three dot
separated parts is attached as the default request credential and
persisted; a nonempty string with another shape changes nothing and reports
false; any other argument detaches the header and removes the persisted
token. -/
def setAuthToken (cs : ClientState) (token : Option String) : ClientState × Bool :=
  match token with
  | some t =>
    if t ≠ "" then
      if (jsSplitChar '.' t).length == 3 then
        ({ cs with attachedAuth := some t, storedToken := some t }, true)
      else (cs, false)
    else ({ cs with attachedAuth := none, storedToken := none }, false)
  | none => ({ cs with attachedAuth := none, storedToken := none }, false)

/-- Record a toast notice. -/
def addToast (cs : ClientState) (msg : String) : ClientState :=
  { cs with toasts := cs.toasts ++ [msg] }

/-- Dispatch one reducer action. -/
def dispatch (now : Nat) (cs : ClientState) (a : AuthAction) : ClientState :=
  { cs with auth := authReducer now cs.auth a }

/-- The clearTimeout pair run through both refs (source lines 440 to 445,
456 to 461, and the effect cleanup 248 to 255): every pending entry whose
id one of the refs holds is cancelled.  The refs themselves keep their
stale values, as in the source. -/
def clearRefTimers (cs : ClientState) : ClientState :=
  { cs with timers := cs.timers.filter (fun e =>
      cs.sessionTimeoutRef != some e.id && cs.activityTimeoutRef != some e.id) }

/-- logoutSilent (source lines 435 to 448): remove the persisted token,
detach the header, cancel both timers, dispatch LOGOUT_SILENT; no toast. -/
def logoutSilentClient (now : Nat) (cs : ClientState) : ClientState :=
  dispatch now (clearRefTimers { cs with storedToken := none, attachedAuth := none })
    .logoutSilent

/-- logout (source lines 451 to 465): the same steps, then dispatch LOGOUT
and emit the success toast. -/
def logoutClient (now : Nat) (cs : ClientState) : ClientState :=
  addToast
    (dispatch now (clearRefTimers { cs with storedToken := none, attachedAuth := none })
      .logout)
    "Logged out successfully"

/-- Outcome of the post to the refresh endpoint: a response whose data
carries a token (and possibly a lifetime), or a rejection. -/
inductive RefreshOutcome where
  | ok (token : String) (expiresIn : Option Nat)
  | err
deriving DecidableEq, Repr

/-- refreshToken (source lines 536 to 554): on a response carrying a truthy
token that setAuthToken accepts, dispatch TOKEN_REFRESH and report success;
otherwise, and on a rejected request, fall into the catch which calls
logoutSilent and reports failure.  No check of the current status guards
the success path. -/
def refreshTokenClient (now : Nat) (cs : ClientState) (out : RefreshOutcome) :
    ClientState × Bool :=
  match out with
  | .ok tok expiresIn =>
    if tok ≠ "" then
      if (setAuthToken cs (some tok)).2 then
        (dispatch now (setAuthToken cs (some tok)).1 (.tokenRefresh tok expiresIn), true)
      else (logoutSilentClient now (setAuthToken cs (some tok)).1, false)
    else (logoutSilentClient now cs, false)
  | .err => (logoutSilentClient now cs, false)

/-- The guard of the axios response interceptor error path (source line
579): error.response?.status === 401 && state.isAuthenticated.  It reads
nothing else; in particular the request url is not consulted, so a 401
coming back on the refresh request itself satisfies it equally. -/
def interceptorGuard (status : Option Nat) (isAuthenticated : Bool) : Bool :=
  status == some 401 && isAuthenticated

/-- The response interceptor error handler (source lines 575 to 594) run on
one rejected response, with the outcome of the refresh request it may issue
passed in.  Returns the client together with the number of refreshToken
calls made for this response. -/
def interceptor401 (now : Nat) (cs : ClientState) (status : Option Nat)
    (out : RefreshOutcome) : ClientState × Nat :=
  if interceptorGuard status cs.auth.isAuthenticated then
    if (refreshTokenClient now cs out).2 then ((refreshTokenClient now cs out).1, 1)
    else
      (addToast (logoutSilentClient now (refreshTokenClient now cs out).1)
        "Session expired. Please log in again.", 1)
  else (cs, 0)

/-- Refresh attempts triggered when the refresh requests themselves keep
coming back 401: the refresh post of source line 538 travels through the
same process wide response interceptor installed on line 576, and with the
session still Authenticated the guard of line 579 holds again, so each such
response triggers a further refreshToken call.  The Nat argument counts the
401 responses delivered: the original one plus each failing refresh
response. -/
def refresh401Cascade (isAuthenticated : Bool) : Nat → Nat
  | 0 => 0
  | n + 1 =>
    if interceptorGuard (some 401) isAuthenticated then
      refresh401Cascade isAuthenticated n + 1
    else 0

/-- An axios rejection as the loadUser catch block sees it: the optional
response (status and body message) and whether the code was ECONNABORTED. -/
structure AxiosErr where
  responseStatus : Option Nat
  responseMsg : Option String
  isTimeout : Bool
deriving DecidableEq, Repr

/-- The catch block of loadUser (source lines 295 to 320): a response with
status 401 would remove the persisted token and detach the header; a five
hundred range status or a timeout only logs; every path then dispatches
AUTH_ERROR with the response message or the fallback text. -/
def loadUserCatch (now : Nat) (cs : ClientState) (e : AxiosErr) : ClientState :=
  dispatch now
    (if e.responseStatus == some 401 then
      { cs with storedToken := none, attachedAuth := none }
    else cs)
    (.authError
      ((match e.responseStatus with
        | some _ => e.responseMsg
        | none => none).getD "Authentication verification failed"))

/-- Outcome of the get on the profile endpoint as loadUser configures it
(source lines 282 to 285): with validateStatus set to status < 500, every
status below five hundred resolves (carrying the optional user of the
body), statuses of five hundred and above reject with the response
attached, and timeouts or network failures reject without one. -/
inductive MeOutcome where
  | resolved (status : Nat) (user : Option User) (msg : Option String)
  | timeoutErr
  | networkErr
deriving DecidableEq, Repr

/-- loadUser (source lines 259 to 321): read the persisted token, validate
it locally, attach it, dispatch USER_LOADING, request the profile, and
dispatch USER_LOADED on a 200 carrying a user; any other resolved status
throws a plain Error (which the catch sees without a response), and
rejections go to the catch directly. -/
def loadUserClient (now : Nat) (cs : ClientState) (out : MeOutcome) : ClientState :=
  match cs.storedToken with
  | none => dispatch now cs .setInitialized
  | some tok =>
    if !isTokenValid tok now then
      dispatch now { cs with storedToken := none, attachedAuth := none } .setInitialized
    else if !(setAuthToken cs (some tok)).2 then
      dispatch now (setAuthToken cs (some tok)).1 .setInitialized
    else
      match out with
      | .resolved status muser msg =>
        if status < 500 then
          match muser with
          | some u =>
            if status = 200 then
              dispatch now (dispatch now (setAuthToken cs (some tok)).1 .userLoading)
                (.userLoaded u)
            else
              loadUserCatch now (dispatch now (setAuthToken cs (some tok)).1 .userLoading)
                ⟨none, none, false⟩
          | none =>
            loadUserCatch now (dispatch now (setAuthToken cs (some tok)).1 .userLoading)
              ⟨none, none, false⟩
        else
          loadUserCatch now (dispatch now (setAuthToken cs (some tok)).1 .userLoading)
            ⟨some status, msg, false⟩
      | .timeoutErr =>
          loadUserCatch now (dispatch now (setAuthToken cs (some tok)).1 .userLoading)
            ⟨none, none, true⟩
      | .networkErr =>
          loadUserCatch now (dispatch now (setAuthToken cs (some tok)).1 .userLoading)
            ⟨none, none, false⟩

/-- Outcome of the login or register post: a response whose data carries a
token, a user and possibly a lifetime, or a rejection with its optional
server message. -/
inductive AuthOutcome where
  | ok (token : String) (user : User) (expiresIn : Option Nat)
  | fail (msg : Option String)
deriving DecidableEq, Repr

/-- login (source lines 380 to 432): dispatch USER_LOADING, validate
locally (throwing into the catch on failure), post, and on a response whose
token setAuthToken accepts dispatch LOGIN_SUCCESS with a welcome toast;
every failure dispatches LOGIN_FAIL with the message and an error toast.
Returns the client and the success flag of the result object. -/
def loginClient (now : Nat) (cs : ClientState) (email password : String)
    (out : AuthOutcome) : ClientState × Bool :=
  match loginValidationError email password with
  | some msg =>
      (addToast (dispatch now (dispatch now cs .userLoading) (.loginFail msg)) msg, false)
  | none =>
    match out with
    | .ok tok u expiresIn =>
      if tok ≠ "" then
        if (setAuthToken (dispatch now cs .userLoading) (some tok)).2 then
          (addToast
            (dispatch now (setAuthToken (dispatch now cs .userLoading) (some tok)).1
              (.loginSuccess tok u expiresIn))
            ("Welcome back, " ++ u.firstName ++ "!"), true)
        else
          (addToast
            (dispatch now (setAuthToken (dispatch now cs .userLoading) (some tok)).1
              (.loginFail "Login succeeded but token is invalid"))
            "Login succeeded but token is invalid", false)
      else
        (addToast
          (dispatch now (dispatch now cs .userLoading)
            (.loginFail "Login succeeded but token is invalid"))
          "Login succeeded but token is invalid", false)
    | .fail msg =>
      (addToast (dispatch now (dispatch now cs .userLoading)
        (.loginFail (msg.getD "Login failed"))) (msg.getD "Login failed"), false)

/-- register (source lines 324 to 377), structured like login with the
register validation, REGISTER_SUCCESS and REGISTER_FAIL. -/
def registerClient (now : Nat) (cs : ClientState) (f : RegisterForm)
    (out : AuthOutcome) : ClientState × Bool :=
  match registerValidationError f with
  | some msg =>
      (addToast (dispatch now (dispatch now cs .userLoading) (.registerFail msg)) msg, false)
  | none =>
    match out with
    | .ok tok u expiresIn =>
      if tok ≠ "" then
        if (setAuthToken (dispatch now cs .userLoading) (some tok)).2 then
          (addToast
            (dispatch now (setAuthToken (dispatch now cs .userLoading) (some tok)).1
              (.registerSuccess tok u expiresIn))
            ("Welcome to the hospital management system, " ++ u.firstName ++ "!"), true)
        else
          (addToast
            (dispatch now (setAuthToken (dispatch now cs .userLoading) (some tok)).1
              (.registerFail "Registration succeeded but token is invalid"))
            "Registration succeeded but token is invalid", false)
      else
        (addToast
          (dispatch now (dispatch now cs .userLoading)
            (.registerFail "Registration succeeded but token is invalid"))
          "Registration succeeded but token is invalid", false)
    | .fail msg =>
      (addToast (dispatch now (dispatch now cs .userLoading)
        (.registerFail (msg.getD "Registration failed"))) (msg.getD "Registration failed"), false)

/-- Whether a scheduled timer with this id is still pending. -/
def timerPending (cs : ClientState) (i : Nat) : Bool :=
  cs.timers.any (fun e => e.id == i)

/-- Remove a pending timer by id (a fired setTimeout is no longer
pending). -/
def removeTimer (cs : ClientState) (i : Nat) : ClientState :=
  { cs with timers := cs.timers.filter (fun e => e.id != i) }

/-- The warning setTimeout callback (source lines 234 to 239); it only runs
while its timer is still scheduled. -/
def warningFireClient (now : Nat) (cs : ClientState) : ClientState :=
  match cs.sessionTimeoutRef with
  | some i =>
    if timerPending cs i then
      addToast (dispatch now (removeTimer cs i) .sessionWarning)
        "Your session will expire in 5 minutes. Please save your work."
    else cs
  | none => cs

/-- The auto logout setTimeout callback (source lines 242 to 245). -/
def expiryFireClient (now : Nat) (cs : ClientState) : ClientState :=
  match cs.activityTimeoutRef with
  | some i =>
    if timerPending cs i then
      addToast (logoutSilentClient now (removeTimer cs i))
        "Session expired due to inactivity. Please log in again."
    else cs
  | none => cs

/-- The operations whose dispatches drive the session lifecycle, each with
the network outcome it consumes.  Profile update and password change are
authenticated mutations of the user object outside the claims about timers
and session state. -/
inductive Ev where
  | loadUserEv (out : MeOutcome)
  | loginEv (email password : String) (out : AuthOutcome)
  | registerEv (form : RegisterForm) (out : AuthOutcome)
  | actEv
  | logoutEv
  | logoutSilentEv
  | refreshEv (out : RefreshOutcome)
  | responseErr (status : Option Nat) (out : RefreshOutcome)
  | warningFire
  | expiryFire
deriving DecidableEq, Repr

/-- Run one operation against the client. -/
def applyEv (now : Nat) (cs : ClientState) : Ev → ClientState
  | .loadUserEv out => loadUserClient now cs out
  | .loginEv email password out => (loginClient now cs email password out).1
  | .registerEv form out => (registerClient now cs form out).1
  | .actEv => dispatch now cs .updateActivity
  | .logoutEv => logoutClient now cs
  | .logoutSilentEv => logoutSilentClient now cs
  | .refreshEv out => (refreshTokenClient now cs out).1
  | .responseErr status out => (interceptor401 now cs status out).1
  | .warningFire => warningFireClient now cs
  | .expiryFire => expiryFireClient now cs

/-- The session timeout effect (source lines 223 to 256) as it runs after a
render: the cleanup and the body first clear the previously scheduled pair
through the refs, and for an authenticated state holding a token the body
schedules a fresh warning timer at SESSION_TIMEOUT minus WARNING_TIME and a
fresh auto logout timer at SESSION_TIMEOUT, storing the new ids in the
refs. -/
def runEffect (now : Nat) (cs : ClientState) : ClientState :=
  if cs.auth.isAuthenticated && cs.auth.token.isSome then
    { clearRefTimers cs with
        timers := (clearRefTimers cs).timers ++
          [⟨cs.nextId, .warning, now + (SESSION_TIMEOUT - WARNING_TIME)⟩,
           ⟨cs.nextId + 1, .expiry, now + SESSION_TIMEOUT⟩],
        sessionTimeoutRef := some cs.nextId,
        activityTimeoutRef := some (cs.nextId + 1),
        nextId := cs.nextId + 2 }
  else clearRefTimers cs

/-- One client step: run the operation, then rerun the timeout effect
exactly when its dependency array (state.isAuthenticated,
state.lastActivity) changed, as React does for the effect of source line
256. -/
def stepClient (now : Nat) (cs : ClientState) (e : Ev) : ClientState :=
  if (applyEv now cs e).auth.isAuthenticated = cs.auth.isAuthenticated ∧
     (applyEv now cs e).auth.lastActivity = cs.auth.lastActivity then
    applyEv now cs e
  else runEffect now (applyEv now cs e)

/-- The initial client: the reducer initial state (source lines 9 to 18)
with the token read from localStorage, no pending timers, no notices. -/
def initClient (stored : Option String) (now : Nat) : ClientState :=
  { auth := { user := none, token := stored, isAuthenticated := false,
              loading := true, error := none, isInitialized := false,
              sessionExpiry := none, lastActivity := now },
    storedToken := stored, attachedAuth := none, timers := [],
    sessionTimeoutRef := none, activityTimeoutRef := none, nextId := 0,
    toasts := [] }

/-- The client states reachable from a fresh mount through the modelled
operations. -/
inductive Reaches : ClientState → Prop where
  | init (stored : Option String) (now : Nat) : Reaches (initClient stored now)
  | step (now : Nat) (e : Ev) {cs : ClientState} :
      Reaches cs → Reaches (stepClient now cs e)

/-- The pending timers of one kind. -/
def pendingOfKind (cs : ClientState) (k : TimerKind) : List TimerEntry :=
  cs.timers.filter (fun e => e.kind == k)

/-- A live session in the sense of the arming condition of the timeout
effect (source line 224): authenticated and holding a token. -/
def liveSession (cs : ClientState) : Bool :=
  cs.auth.isAuthenticated && cs.auth.token.isSome

/-- The structural acceptance condition of setAuthToken (source lines 162
to 165): a nonempty string with exactly three dot separated segments. -/
def tokenWellFormed (t : String) : Bool :=
  t != "" && (jsSplitChar '.' t).length == 3

/-- Every pending timer is the one its kind ref points to: the warning ref
covers warning entries and the auto logout ref covers expiry entries, so
clearing through the refs cancels everything pending. -/
def RefsCover (cs : ClientState) : Prop :=
  ∀ e ∈ cs.timers,
    (e.kind = TimerKind.warning → cs.sessionTimeoutRef = some e.id) ∧
    (e.kind = TimerKind.expiry → cs.activityTimeoutRef = some e.id)

/-- The timer bookkeeping invariant maintained by every client step:
pending ids are below the fresh counter, the refs cover the pending
entries, pending ids are distinct, and an unauthenticated state has no
pending timer. -/
def TimerInv (cs : ClientState) : Prop :=
  (∀ e ∈ cs.timers, e.id < cs.nextId) ∧
  RefsCover cs ∧
  (cs.timers.map TimerEntry.id).Nodup ∧
  (cs.auth.isAuthenticated = false → cs.timers = [])

/-- What every operation (as opposed to the timeout effect) does to the
timer bookkeeping: it can only cancel pending timers, and it never touches
the refs or the fresh counter. -/
def FramePreserved (cs cs1 : ClientState) : Prop :=
  cs1.timers.Sublist cs.timers ∧
  cs1.sessionTimeoutRef = cs.sessionTimeoutRef ∧
  cs1.activityTimeoutRef = cs.activityTimeoutRef ∧
  cs1.nextId = cs.nextId

/-- A sample user for concrete scenarios. -/
def demoUser : User := ⟨"admin", "Ada"⟩

/-- A sample authenticated client holding a well formed token. -/
def authedClient : ClientState :=
  { auth := { user := some demoUser, token := some "a.b.c",
              isAuthenticated := true, loading := false, error := none,
              isInitialized := true, sessionExpiry := none, lastActivity := 0 },
    storedToken := some "a.b.c", attachedAuth := some "a.b.c", timers := [],
    sessionTimeoutRef := none, activityTimeoutRef := none, nextId := 0,
    toasts := [] }

/-- An authenticated client whose isInitialized flag is still false, as
after a USER_LOADED that raced initialization; only its isInitialized field
differs from authedClient. -/
def uninitAuthedClient : ClientState :=
  { auth := { user := some demoUser, token := some "a.b.c",
              isAuthenticated := true, loading := false, error := none,
              isInitialized := false, sessionExpiry := none, lastActivity := 0 },
    storedToken := some "a.b.c", attachedAuth := some "a.b.c", timers := [],
    sessionTimeoutRef := none, activityTimeoutRef := none, nextId := 0,
    toasts := [] }

/-- A persisted token with header h, signature s, and a payload whose exp
claim is far in the future (the base64 of the exp 9999999999 object). -/
def futureToken : String := "h.eyJleHAiOjk5OTk5OTk5OTl9.s"

/-- The client at mount with the future token persisted, at a November 2023
clock value. -/
def c4Start : ClientState := initClient (some futureToken) 1700000000000

/-- The sample authenticated client right after a logout. -/
def c8AfterLogout : ClientState := logoutClient 10 authedClient

/-- A client that has just logged in successfully at time 1000. -/
def c7Login : ClientState :=
  stepClient 1000 (initClient none 0)
    (.loginEv "a@b.com" "password123" (.ok "h.x.s" demoUser (some 3600)))

/-- The same client after its warning timer fired at the scheduled time. -/
def c7AfterWarning : ClientState := stepClient 2501000 c7Login .warningFire

/-- The integer cross multiplication deciding the exp comparison agrees
with the exact rational comparison of the decimal value against nowMs
divided by one thousand. -/
theorem JNum.gtMs_eq (a : JNum) (nowMs : Nat) :
    a.gtMsOver1000 nowMs = decide ((nowMs : ℚ) / 1000 < a.toRat) := by
  rcases a with ⟨neg, m, e⟩
  cases neg with
  | true =>
    have hne : ¬ ((nowMs : ℚ) / 1000 < JNum.toRat ⟨true, m, e⟩) := by
      intro h
      have h1 : (0 : ℚ) ≤ (m : ℚ) * (10 : ℚ) ^ e := by positivity
      have h2 : (0 : ℚ) ≤ (nowMs : ℚ) / 1000 := by positivity
      have h3 : JNum.toRat ⟨true, m, e⟩ = -((m : ℚ) * (10 : ℚ) ^ e) := rfl
      rw [h3] at h
      linarith
    show false = decide ((nowMs : ℚ) / 1000 < JNum.toRat ⟨true, m, e⟩)
    exact (decide_eq_false hne).symm
  | false =>
    cases e with
    | ofNat k =>
      show decide (m * 10 ^ k * 1000 > nowMs) =
        decide ((nowMs : ℚ) / 1000 < (m : ℚ) * (10 : ℚ) ^ (Int.ofNat k))
      rw [decide_eq_decide, show ((10 : ℚ) ^ (Int.ofNat k)) = (10 : ℚ) ^ k from zpow_natCast 10 k,
        div_lt_iff (by norm_num : (0 : ℚ) < 1000)]
      constructor
      · intro h
        have h2 : ((nowMs : ℕ) : ℚ) < ((m * 10 ^ k * 1000 : ℕ) : ℚ) := by exact_mod_cast h
        push_cast at h2
        linarith
      · intro h
        have h2 : ((nowMs : ℕ) : ℚ) < ((m * 10 ^ k * 1000 : ℕ) : ℚ) := by push_cast; linarith
        exact_mod_cast h2
    | negSucc k =>
      show decide (m * 1000 > nowMs * 10 ^ (k + 1)) =
        decide ((nowMs : ℚ) / 1000 < (m : ℚ) * (10 : ℚ) ^ (Int.negSucc k))
      rw [decide_eq_decide, zpow_negSucc, div_lt_iff (by norm_num : (0 : ℚ) < 1000),
        show (m : ℚ) * ((10 : ℚ) ^ (k + 1))⁻¹ * 1000 = (m : ℚ) * 1000 / (10 : ℚ) ^ (k + 1) from by
          ring,
        lt_div_iff (by positivity : (0 : ℚ) < (10 : ℚ) ^ (k + 1))]
      constructor
      · intro h
        have h2 : ((nowMs * 10 ^ (k + 1) : ℕ) : ℚ) < ((m * 1000 : ℕ) : ℚ) := by exact_mod_cast h
        push_cast at h2
        linarith
      · intro h
        have h2 : ((nowMs * 10 ^ (k + 1) : ℕ) : ℚ) < ((m * 1000 : ℕ) : ℚ) := by push_cast; linarith
        exact_mod_cast h2

/-- C3 counterexample: the token whose header and signature segments are
both empty, but whose payload segment decodes to an object with a far
future exp claim, is accepted by isTokenValid at a November 2023 clock
value, although its three segments are not all nonempty; acceptance
therefore does not require three nonempty segments. -/
theorem c3_empty_segment_token_accepted :
    jsSplitChar '.' ".eyJleHAiOjk5OTk5OTk5OTl9." = ["", "eyJleHAiOjk5OTk5OTk5OTl9", ""] ∧
    isTokenValid ".eyJleHAiOjk5OTk5OTk5OTl9." 1700000000000 = true := by
  refine ⟨by decide, by decide⟩

/-- C3 amended: a token is accepted iff it splits at dots into exactly
three segments, possibly empty, whose middle segment decodes (atob then
JSON.parse) to a payload whose exp member exceeds the current time in
seconds: a token with fewer or more than three segments is rejected by the
pure validator with no request involved, an undecodable payload is treated
as expired, and a numeric exp claim at or below the current time is treated
as expired.  The first conjunct certifies that the integer comparison the
model computes is exactly the rational comparison against nowMs / 1000. -/
theorem c3_token_validation_amended :
    (∀ (a : JNum) (nowMs : Nat),
      a.gtMsOver1000 nowMs = decide ((nowMs : ℚ) / 1000 < a.toRat)) ∧
    (∀ (t : String) (now : Nat), (jsSplitChar '.' t).length ≠ 3 →
      isTokenValid t now = false) ∧
    (∀ (t : String) (now : Nat) (seg : String),
      (jsSplitChar '.' t).get? 1 = some seg → (atob seg).bind jsonParse = none →
      isTokenValid t now = false) ∧
    (∀ (t : String) (now : Nat) (seg : String) (payload : Json) (q : JNum),
      (jsSplitChar '.' t).get? 1 = some seg →
      (atob seg).bind jsonParse = some payload →
      expAccess payload = .ok (some (.num q)) → q.gtMsOver1000 now = false →
      isTokenValid t now = false) ∧
    (∀ (t : String) (now : Nat) (seg : String) (payload : Json) (q : JNum),
      (jsSplitChar '.' t).length = 3 →
      (jsSplitChar '.' t).get? 1 = some seg →
      (atob seg).bind jsonParse = some payload →
      expAccess payload = .ok (some (.num q)) → q.gtMsOver1000 now = true →
      isTokenValid t now = true) := by
  have hsplit : ∀ t : String, t = "" → (jsSplitChar '.' t).length = 1 := by
    intro t ht
    rw [ht]
    rfl
  refine ⟨JNum.gtMs_eq, ?_, ?_, ?_, ?_⟩
  · intro t now hlen
    unfold isTokenValid
    by_cases ht : t = ""
    · rw [if_pos ht]
    · rw [if_neg ht, if_pos hlen]
  · intro t now seg hseg hdec
    unfold isTokenValid
    by_cases ht : t = ""
    · rw [if_pos ht]
    by_cases hlen : (jsSplitChar '.' t).length ≠ 3
    · rw [if_neg ht, if_pos hlen]
    rw [if_neg ht, if_neg hlen, hseg, Option.getD_some]
    rcases ha : atob seg with _ | d
    · rfl
    rw [ha, Option.some_bind] at hdec
    simp only [ha, hdec]
  · intro t now seg payload q hseg hdec hexp hgt
    unfold isTokenValid
    by_cases ht : t = ""
    · rw [if_pos ht]
    by_cases hlen : (jsSplitChar '.' t).length ≠ 3
    · rw [if_neg ht, if_pos hlen]
    rw [if_neg ht, if_neg hlen, hseg, Option.getD_some]
    rcases ha : atob seg with _ | d
    · rfl
    rw [ha, Option.some_bind] at hdec
    simp only [ha, hdec, hexp, jsGT]
    exact hgt
  · intro t now seg payload q hlen hseg hdec hexp hgt
    unfold isTokenValid
    have ht : t ≠ "" := by
      intro h
      rw [hsplit t h] at hlen
      exact absurd hlen (by decide)
    rw [if_neg ht, if_neg (by rw [hlen]; exact fun h => h rfl), hseg, Option.getD_some]
    rcases ha : atob seg with _ | d
    · rw [ha, Option.none_bind] at hdec
      exact absurd hdec (by simp)
    rw [ha, Option.some_bind] at hdec
    simp only [ha, hdec, hexp, jsGT]
    exact hgt

/-- Witness for C3 amended at concrete inputs: the wrong segment count, an
undecodable payload, a past claim and a future claim. -/
theorem c3_token_validation_amended_witness :
    JNum.gtMsOver1000 ⟨false, 100, 0⟩ 1700000000000 =
      decide ((1700000000000 : ℚ) / 1000 < JNum.toRat ⟨false, 100, 0⟩) ∧
    isTokenValid "a.b" 1700000000000 = false ∧
    isTokenValid "h.bm90anNvbg==.s" 1700000000000 = false ∧
    isTokenValid "h.eyJleHAiOjEwMH0=.s" 1700000000000 = false ∧
    isTokenValid "h.eyJleHAiOjk5OTk5OTk5OTl9.s" 1700000000000 = true := by
  refine ⟨c3_token_validation_amended.1 ⟨false, 100, 0⟩ 1700000000000, ?_, ?_, ?_, ?_⟩
  · exact c3_token_validation_amended.2.1 "a.b" 1700000000000 (by decide)
  · exact c3_token_validation_amended.2.2.1 "h.bm90anNvbg==.s" 1700000000000
      "bm90anNvbg==" (by decide) (by rfl)
  · exact c3_token_validation_amended.2.2.2.1 "h.eyJleHAiOjEwMH0=.s" 1700000000000
      "eyJleHAiOjEwMH0=" (Json.obj [("exp", .num ⟨false, 100, 0⟩)]) ⟨false, 100, 0⟩
      (by decide) (by rfl) (by rfl) (by decide)
  · exact c3_token_validation_amended.2.2.2.2 "h.eyJleHAiOjk5OTk5OTk5OTl9.s" 1700000000000
      "eyJleHAiOjk5OTk5OTk5OTl9" (Json.obj [("exp", .num ⟨false, 9999999999, 0⟩)])
      ⟨false, 9999999999, 0⟩ (by decide) (by decide) (by rfl) (by rfl) (by decide)

/-- C1: while the session is Authenticated, one 401 response triggers
exactly one refreshToken call; if the refresh fails the session is silently
logged out (unauthenticated, token and user cleared, persisted token
removed) and the session expired notice is recorded; if it succeeds the
session stays Authenticated with the fresh token in the state, attached to
the request pipeline and persisted. -/
theorem c1_401_triggers_single_refresh (now : Nat) (cs : ClientState)
    (out : RefreshOutcome) (hauth : cs.auth.isAuthenticated = true) :
    (interceptor401 now cs (some 401) out).2 = 1 ∧
    (∀ tok expiresIn, out = .ok tok expiresIn → tokenWellFormed tok = true →
      (interceptor401 now cs (some 401) out).1.auth.isAuthenticated = true ∧
      (interceptor401 now cs (some 401) out).1.auth.token = some tok ∧
      (interceptor401 now cs (some 401) out).1.attachedAuth = some tok ∧
      (interceptor401 now cs (some 401) out).1.storedToken = some tok) ∧
    (out = .err →
      (interceptor401 now cs (some 401) out).1.auth.isAuthenticated = false ∧
      (interceptor401 now cs (some 401) out).1.auth.token = none ∧
      (interceptor401 now cs (some 401) out).1.auth.user = none ∧
      (interceptor401 now cs (some 401) out).1.storedToken = none ∧
      "Session expired. Please log in again." ∈ (interceptor401 now cs (some 401) out).1.toasts) := by
  have hg : interceptorGuard (some 401) cs.auth.isAuthenticated = true := by
    rw [hauth]
    rfl
  have hstep : interceptor401 now cs (some 401) out =
      (if (refreshTokenClient now cs out).2 then ((refreshTokenClient now cs out).1, 1)
       else (addToast (logoutSilentClient now (refreshTokenClient now cs out).1)
         "Session expired. Please log in again.", 1)) := by
    unfold interceptor401
    rw [hg]
    simp
  refine ⟨?_, ?_, ?_⟩
  · rw [hstep]
    by_cases hr : (refreshTokenClient now cs out).2 <;> simp [hr]
  · intro tok expiresIn hout hwf
    have h12 : ¬ tok = "" ∧ (jsSplitChar '.' tok).length = 3 := by
      simpa [tokenWellFormed] using hwf
    have href : refreshTokenClient now cs out =
        (dispatch now { cs with attachedAuth := some tok, storedToken := some tok }
          (.tokenRefresh tok expiresIn), true) := by
      rw [hout]
      simp [refreshTokenClient, setAuthToken, h12.1, h12.2]
    rw [hstep, href]
    refine ⟨?_, rfl, rfl, rfl⟩
    show cs.auth.isAuthenticated = true
    exact hauth
  · intro hout
    have href : refreshTokenClient now cs out = (logoutSilentClient now cs, false) := by
      rw [hout]
      rfl
    rw [hstep, href]
    refine ⟨rfl, rfl, rfl, rfl, ?_⟩
    simp [addToast, logoutSilentClient, dispatch, clearRefTimers]

/-- Witness for C1 at the sample authenticated client, for both a failing
and a succeeding refresh. -/
theorem c1_401_triggers_single_refresh_witness :
    (interceptor401 5 authedClient (some 401) .err).2 = 1 ∧
    (interceptor401 5 authedClient (some 401) .err).1.auth.isAuthenticated = false ∧
    "Session expired. Please log in again." ∈ (interceptor401 5 authedClient (some 401) .err).1.toasts ∧
    (interceptor401 5 authedClient (some 401) (.ok "n.e.w" none)).1.auth.token = some "n.e.w" ∧
    (interceptor401 5 authedClient (some 401) (.ok "n.e.w" none)).1.auth.isAuthenticated = true := by
  have h1 := c1_401_triggers_single_refresh 5 authedClient .err rfl
  have h2 := c1_401_triggers_single_refresh 5 authedClient (.ok "n.e.w" none) rfl
  refine ⟨h1.1, (h1.2.2 rfl).1, (h1.2.2 rfl).2.2.2.2, ?_, ?_⟩
  · exact (h2.2.1 "n.e.w" none rfl (by decide)).2.1
  · exact (h2.2.1 "n.e.w" none rfl (by decide)).1

/-- When the refs cover the pending timers, clearing through the refs
cancels every pending timer. -/
theorem clearRefTimers_nil (cs : ClientState) (h : RefsCover cs) :
    (clearRefTimers cs).timers = [] := by
  unfold clearRefTimers
  rw [show ({ cs with timers := cs.timers.filter (fun e =>
      cs.sessionTimeoutRef != some e.id && cs.activityTimeoutRef != some e.id) } :
      ClientState).timers = cs.timers.filter (fun e =>
      cs.sessionTimeoutRef != some e.id && cs.activityTimeoutRef != some e.id) from rfl]
  rw [List.filter_eq_nil]
  intro e he
  rcases h e he with ⟨hw, hx⟩
  cases hk : e.kind with
  | warning =>
    rw [hw hk]
    simp
  | expiry =>
    rw [hx hk]
    simp

/-- FramePreserved is reflexive. -/
theorem frame_refl (cs : ClientState) : FramePreserved cs cs :=
  ⟨List.Sublist.refl _, rfl, rfl, rfl⟩

/-- FramePreserved composes. -/
theorem frame_trans {cs cs1 cs2 : ClientState} (h1 : FramePreserved cs cs1)
    (h2 : FramePreserved cs1 cs2) : FramePreserved cs cs2 :=
  ⟨h2.1.trans h1.1, h2.2.1.trans h1.2.1, h2.2.2.1.trans h1.2.2.1, h2.2.2.2.trans h1.2.2.2⟩

/-- Dispatching an action touches only the reducer state. -/
theorem frame_dispatch (now : Nat) (cs : ClientState) (a : AuthAction) :
    FramePreserved cs (dispatch now cs a) :=
  ⟨List.Sublist.refl _, rfl, rfl, rfl⟩

/-- Emitting a toast touches no timer state. -/
theorem frame_addToast (cs : ClientState) (msg : String) :
    FramePreserved cs (addToast cs msg) :=
  ⟨List.Sublist.refl _, rfl, rfl, rfl⟩

/-- setAuthToken touches only the storage and header slots. -/
theorem frame_setAuthToken (cs : ClientState) (t : Option String) :
    FramePreserved cs (setAuthToken cs t).1 := by
  cases t with
  | none => exact ⟨List.Sublist.refl _, rfl, rfl, rfl⟩
  | some s =>
    simp only [setAuthToken]
    split_ifs <;> exact ⟨List.Sublist.refl _, rfl, rfl, rfl⟩

/-- Clearing through the refs can only cancel timers. -/
theorem frame_clearRefTimers (cs : ClientState) :
    FramePreserved cs (clearRefTimers cs) :=
  ⟨List.filter_sublist _, rfl, rfl, rfl⟩

/-- Removing a fired timer can only cancel timers. -/
theorem frame_removeTimer (cs : ClientState) (i : Nat) :
    FramePreserved cs (removeTimer cs i) :=
  ⟨List.filter_sublist _, rfl, rfl, rfl⟩

/-- The silent logout only cancels timers and never touches the refs or
the counter. -/
theorem frame_logoutSilentClient (now : Nat) (cs : ClientState) :
    FramePreserved cs (logoutSilentClient now cs) :=
  ⟨List.filter_sublist _, rfl, rfl, rfl⟩

/-- The logout only cancels timers and never touches the refs or the
counter. -/
theorem frame_logoutClient (now : Nat) (cs : ClientState) :
    FramePreserved cs (logoutClient now cs) :=
  ⟨List.filter_sublist _, rfl, rfl, rfl⟩

/-- The refresh flow only cancels timers and never touches the refs or the
counter. -/
theorem frame_refreshTokenClient (now : Nat) (cs : ClientState) (out : RefreshOutcome) :
    FramePreserved cs (refreshTokenClient now cs out).1 := by
  cases out with
  | err => exact frame_logoutSilentClient now cs
  | ok tok e =>
    simp only [refreshTokenClient]
    split_ifs with h1 h2
    · exact frame_trans (frame_setAuthToken cs (some tok))
        (frame_dispatch now _ (.tokenRefresh tok e))
    · exact frame_trans (frame_setAuthToken cs (some tok))
        (frame_logoutSilentClient now _)
    · exact frame_logoutSilentClient now cs

/-- The interceptor flow preserves the timer frame. -/
theorem frame_interceptor401 (now : Nat) (cs : ClientState) (status : Option Nat)
    (out : RefreshOutcome) : FramePreserved cs (interceptor401 now cs status out).1 := by
  unfold interceptor401
  split_ifs with h1 h2
  · exact frame_refreshTokenClient now cs out
  · exact frame_trans (frame_refreshTokenClient now cs out)
      (frame_trans (frame_logoutSilentClient now _) (frame_addToast _ _))
  · exact frame_refl cs

/-- The loadUser catch block preserves the timer frame. -/
theorem frame_loadUserCatch (now : Nat) (cs : ClientState) (e : AxiosErr) :
    FramePreserved cs (loadUserCatch now cs e) := by
  unfold loadUserCatch
  split_ifs <;> exact ⟨List.Sublist.refl _, rfl, rfl, rfl⟩

/-- The loadUser flow preserves the timer frame. -/
theorem frame_loadUserClient (now : Nat) (cs : ClientState) (out : MeOutcome) :
    FramePreserved cs (loadUserClient now cs out) := by
  rcases htok : cs.storedToken with _ | tok
  · simp only [loadUserClient, htok]
    exact frame_dispatch now cs .setInitialized
  · cases out with
    | resolved status muser msg =>
      cases muser with
      | some u =>
        simp only [loadUserClient, htok]
        split_ifs with h1 h2 h3 h4
        · exact ⟨List.Sublist.refl _, rfl, rfl, rfl⟩
        · exact frame_trans (frame_setAuthToken cs (some tok)) (frame_dispatch now _ _)
        · exact frame_trans (frame_setAuthToken cs (some tok))
            (frame_trans (frame_dispatch now _ _) (frame_dispatch now _ _))
        · exact frame_trans (frame_setAuthToken cs (some tok))
            (frame_trans (frame_dispatch now _ _) (frame_loadUserCatch now _ _))
        · exact frame_trans (frame_setAuthToken cs (some tok))
            (frame_trans (frame_dispatch now _ _) (frame_loadUserCatch now _ _))
      | none =>
        simp only [loadUserClient, htok]
        split_ifs with h1 h2 h3
        · exact ⟨List.Sublist.refl _, rfl, rfl, rfl⟩
        · exact frame_trans (frame_setAuthToken cs (some tok)) (frame_dispatch now _ _)
        · exact frame_trans (frame_setAuthToken cs (some tok))
            (frame_trans (frame_dispatch now _ _) (frame_loadUserCatch now _ _))
        · exact frame_trans (frame_setAuthToken cs (some tok))
            (frame_trans (frame_dispatch now _ _) (frame_loadUserCatch now _ _))
    | timeoutErr =>
      simp only [loadUserClient, htok]
      split_ifs with h1 h2
      · exact ⟨List.Sublist.refl _, rfl, rfl, rfl⟩
      · exact frame_trans (frame_setAuthToken cs (some tok)) (frame_dispatch now _ _)
      · exact frame_trans (frame_setAuthToken cs (some tok))
          (frame_trans (frame_dispatch now _ _) (frame_loadUserCatch now _ _))
    | networkErr =>
      simp only [loadUserClient, htok]
      split_ifs with h1 h2
      · exact ⟨List.Sublist.refl _, rfl, rfl, rfl⟩
      · exact frame_trans (frame_setAuthToken cs (some tok)) (frame_dispatch now _ _)
      · exact frame_trans (frame_setAuthToken cs (some tok))
          (frame_trans (frame_dispatch now _ _) (frame_loadUserCatch now _ _))

/-- The login flow preserves the timer frame. -/
theorem frame_loginClient (now : Nat) (cs : ClientState) (email password : String)
    (out : AuthOutcome) : FramePreserved cs (loginClient now cs email password out).1 := by
  rcases hv : loginValidationError email password with _ | msg
  · cases out with
    | fail msg =>
      simp only [loginClient, hv]
      exact ⟨List.Sublist.refl _, rfl, rfl, rfl⟩
    | ok tok u e =>
      simp only [loginClient, hv]
      split_ifs with h1 h2
      · exact frame_trans (frame_dispatch now cs .userLoading)
          (frame_trans (frame_setAuthToken _ (some tok))
            (frame_trans (frame_dispatch now _ _) (frame_addToast _ _)))
      · exact frame_trans (frame_dispatch now cs .userLoading)
          (frame_trans (frame_setAuthToken _ (some tok))
            (frame_trans (frame_dispatch now _ _) (frame_addToast _ _)))
      · exact ⟨List.Sublist.refl _, rfl, rfl, rfl⟩
  · simp only [loginClient, hv]
    exact ⟨List.Sublist.refl _, rfl, rfl, rfl⟩

/-- The register flow preserves the timer frame. -/
theorem frame_registerClient (now : Nat) (cs : ClientState) (f : RegisterForm)
    (out : AuthOutcome) : FramePreserved cs (registerClient now cs f out).1 := by
  rcases hv : registerValidationError f with _ | msg
  · cases out with
    | fail msg =>
      simp only [registerClient, hv]
      exact ⟨List.Sublist.refl _, rfl, rfl, rfl⟩
    | ok tok u e =>
      simp only [registerClient, hv]
      split_ifs with h1 h2
      · exact frame_trans (frame_dispatch now cs .userLoading)
          (frame_trans (frame_setAuthToken _ (some tok))
            (frame_trans (frame_dispatch now _ _) (frame_addToast _ _)))
      · exact frame_trans (frame_dispatch now cs .userLoading)
          (frame_trans (frame_setAuthToken _ (some tok))
            (frame_trans (frame_dispatch now _ _) (frame_addToast _ _)))
      · exact ⟨List.Sublist.refl _, rfl, rfl, rfl⟩
  · simp only [registerClient, hv]
    exact ⟨List.Sublist.refl _, rfl, rfl, rfl⟩

/-- The warning callback preserves the timer frame. -/
theorem frame_warningFireClient (now : Nat) (cs : ClientState) :
    FramePreserved cs (warningFireClient now cs) := by
  rcases hr : cs.sessionTimeoutRef with _ | i
  · simp only [warningFireClient, hr]
    exact frame_refl cs
  · simp only [warningFireClient, hr]
    split_ifs with h1
    · exact frame_trans (frame_removeTimer cs i)
        (frame_trans (frame_dispatch now _ _) (frame_addToast _ _))
    · exact frame_refl cs

/-- The auto logout callback preserves the timer frame. -/
theorem frame_expiryFireClient (now : Nat) (cs : ClientState) :
    FramePreserved cs (expiryFireClient now cs) := by
  rcases hr : cs.activityTimeoutRef with _ | i
  · simp only [expiryFireClient, hr]
    exact frame_refl cs
  · simp only [expiryFireClient, hr]
    split_ifs with h1
    · exact frame_trans (frame_removeTimer cs i)
        (frame_trans (frame_logoutSilentClient now _) (frame_addToast _ _))
    · exact frame_refl cs

/-- Every operation preserves the timer frame: it can only cancel pending
timers and never touches the refs or the counter (only the timeout effect
schedules). -/
theorem applyEv_frame (now : Nat) (cs : ClientState) (e : Ev) :
    FramePreserved cs (applyEv now cs e) := by
  cases e with
  | loadUserEv out => exact frame_loadUserClient now cs out
  | loginEv email password out => exact frame_loginClient now cs email password out
  | registerEv f out => exact frame_registerClient now cs f out
  | actEv => exact frame_dispatch now cs .updateActivity
  | logoutEv => exact frame_logoutClient now cs
  | logoutSilentEv => exact frame_logoutSilentClient now cs
  | refreshEv out => exact frame_refreshTokenClient now cs out
  | responseErr status out => exact frame_interceptor401 now cs status out
  | warningFire => exact frame_warningFireClient now cs
  | expiryFire => exact frame_expiryFireClient now cs

/-- RefsCover transfers along a preserved frame. -/
theorem refsCover_frame {cs cs1 : ClientState} (h : RefsCover cs)
    (hf : FramePreserved cs cs1) : RefsCover cs1 := by
  intro e he
  rw [hf.2.1, hf.2.2.1]
  exact h e (hf.1.subset he)

/-- The timer invariant transfers along a preserved frame when the
authenticated flag did not change. -/
theorem timerInv_frame {cs cs1 : ClientState} (h : TimerInv cs)
    (hf : FramePreserved cs cs1)
    (hauth : cs1.auth.isAuthenticated = cs.auth.isAuthenticated) : TimerInv cs1 := by
  obtain ⟨h1, h2, h3, h4⟩ := h
  obtain ⟨hs, hr1, hr2, hn⟩ := hf
  refine ⟨?_, ?_, ?_, ?_⟩
  · intro e he
    rw [hn]
    exact h1 e (hs.subset he)
  · intro e he
    rw [hr1, hr2]
    exact h2 e (hs.subset he)
  · exact (hs.map TimerEntry.id).nodup h3
  · intro hfalse
    have h0 : cs.timers = [] := h4 (by rw [← hauth]; exact hfalse)
    exact List.sublist_nil.mp (h0 ▸ hs)

/-- Rerunning the timeout effect restores the full timer invariant, given
only that the refs covered the pending timers beforehand. -/
theorem timerInv_runEffect (now : Nat) (cs : ClientState) (h : RefsCover cs) :
    TimerInv (runEffect now cs) := by
  have hnil : (clearRefTimers cs).timers = [] := clearRefTimers_nil cs h
  unfold runEffect
  by_cases hl : (cs.auth.isAuthenticated && cs.auth.token.isSome) = true
  · rw [if_pos hl]
    refine ⟨?_, ?_, ?_, ?_⟩
    · intro e he
      rw [show ({ clearRefTimers cs with
            timers := (clearRefTimers cs).timers ++
              [⟨cs.nextId, .warning, now + (SESSION_TIMEOUT - WARNING_TIME)⟩,
               ⟨cs.nextId + 1, .expiry, now + SESSION_TIMEOUT⟩],
            sessionTimeoutRef := some cs.nextId,
            activityTimeoutRef := some (cs.nextId + 1),
            nextId := cs.nextId + 2 } : ClientState).timers =
          (clearRefTimers cs).timers ++
              [⟨cs.nextId, .warning, now + (SESSION_TIMEOUT - WARNING_TIME)⟩,
               ⟨cs.nextId + 1, .expiry, now + SESSION_TIMEOUT⟩] from rfl, hnil] at he
      simp only [List.nil_append, List.mem_cons, List.not_mem_nil, or_false] at he
      rcases he with rfl | rfl
      · show cs.nextId < cs.nextId + 2
        omega
      · show cs.nextId + 1 < cs.nextId + 2
        omega
    · intro e he
      rw [show ({ clearRefTimers cs with
            timers := (clearRefTimers cs).timers ++
              [⟨cs.nextId, .warning, now + (SESSION_TIMEOUT - WARNING_TIME)⟩,
               ⟨cs.nextId + 1, .expiry, now + SESSION_TIMEOUT⟩],
            sessionTimeoutRef := some cs.nextId,
            activityTimeoutRef := some (cs.nextId + 1),
            nextId := cs.nextId + 2 } : ClientState).timers =
          (clearRefTimers cs).timers ++
              [⟨cs.nextId, .warning, now + (SESSION_TIMEOUT - WARNING_TIME)⟩,
               ⟨cs.nextId + 1, .expiry, now + SESSION_TIMEOUT⟩] from rfl, hnil] at he
      simp only [List.nil_append, List.mem_cons, List.not_mem_nil, or_false] at he
      rcases he with rfl | rfl
      · exact ⟨fun _ => rfl, fun hk => nomatch hk⟩
      · exact ⟨fun hk => (nomatch hk), fun _ => rfl⟩
    · rw [show ({ clearRefTimers cs with
            timers := (clearRefTimers cs).timers ++
              [⟨cs.nextId, .warning, now + (SESSION_TIMEOUT - WARNING_TIME)⟩,
               ⟨cs.nextId + 1, .expiry, now + SESSION_TIMEOUT⟩],
            sessionTimeoutRef := some cs.nextId,
            activityTimeoutRef := some (cs.nextId + 1),
            nextId := cs.nextId + 2 } : ClientState).timers =
          (clearRefTimers cs).timers ++
              [⟨cs.nextId, .warning, now + (SESSION_TIMEOUT - WARNING_TIME)⟩,
               ⟨cs.nextId + 1, .expiry, now + SESSION_TIMEOUT⟩] from rfl, hnil]
      simp
    · intro hfalse
      rw [show ({ clearRefTimers cs with
            timers := (clearRefTimers cs).timers ++
              [⟨cs.nextId, .warning, now + (SESSION_TIMEOUT - WARNING_TIME)⟩,
               ⟨cs.nextId + 1, .expiry, now + SESSION_TIMEOUT⟩],
            sessionTimeoutRef := some cs.nextId,
            activityTimeoutRef := some (cs.nextId + 1),
            nextId := cs.nextId + 2 } : ClientState).auth = cs.auth from rfl] at hfalse
      rw [hfalse] at hl
      simp at hl
  · rw [if_neg hl]
    refine ⟨?_, ?_, ?_, fun _ => hnil⟩
    · intro e he
      rw [hnil] at he
      exact absurd he (List.not_mem_nil e)
    · intro e he
      rw [hnil] at he
      exact absurd he (List.not_mem_nil e)
    · rw [hnil]
      exact List.nodup_nil

/-- One client step preserves the timer invariant. -/
theorem timerInv_step (now : Nat) (cs : ClientState) (e : Ev) (h : TimerInv cs) :
    TimerInv (stepClient now cs e) := by
  have hf := applyEv_frame now cs e
  unfold stepClient
  by_cases hd : ((applyEv now cs e).auth.isAuthenticated = cs.auth.isAuthenticated ∧
      (applyEv now cs e).auth.lastActivity = cs.auth.lastActivity)
  · rw [if_pos hd]
    exact timerInv_frame h hf hd.1
  · rw [if_neg hd]
    exact timerInv_runEffect now _ (refsCover_frame h.2.1 hf)

/-- Every reachable client satisfies the timer invariant. -/
theorem reaches_timerInv {cs : ClientState} (h : Reaches cs) : TimerInv cs := by
  induction h with
  | init stored now =>
    exact ⟨fun e he => absurd he (List.not_mem_nil e),
      fun e he => absurd he (List.not_mem_nil e), List.nodup_nil, fun _ => rfl⟩
  | step now e hr ih => exact timerInv_step now _ e ih

/-- A nodup list of naturals whose members are pairwise equal has at most
one member. -/
theorem length_le_one_of_nodup_const {l : List Nat} (hn : l.Nodup)
    (hc : ∀ a ∈ l, ∀ b ∈ l, a = b) : l.length ≤ 1 := by
  match l with
  | [] => simp
  | [a] => simp
  | a :: b :: t =>
    exfalso
    have hab : a = b := hc a (by simp) b (by simp)
    have := List.nodup_cons.mp hn
    exact this.1 (by simp [hab])

/-- Under the timer invariant at most one timer of each kind is pending. -/
theorem pendingOfKind_le_one (cs : ClientState) (h : TimerInv cs) (k : TimerKind) :
    (pendingOfKind cs k).length ≤ 1 := by
  obtain ⟨-, h2, h3, -⟩ := h
  have hsub : (pendingOfKind cs k).Sublist cs.timers := List.filter_sublist _
  have hnodup : ((pendingOfKind cs k).map TimerEntry.id).Nodup :=
    (hsub.map TimerEntry.id).nodup h3
  have hconst : ∀ a ∈ (pendingOfKind cs k).map TimerEntry.id,
      ∀ b ∈ (pendingOfKind cs k).map TimerEntry.id, a = b := by
    intro a ha b hb
    rcases List.mem_map.mp ha with ⟨e1, he1, rfl⟩
    rcases List.mem_map.mp hb with ⟨e2, he2, rfl⟩
    have hk1 : e1.kind = k := by
      have := (List.mem_filter.mp he1).2
      simpa using this
    have hk2 : e2.kind = k := by
      have := (List.mem_filter.mp he2).2
      simpa using this
    cases k with
    | warning =>
      have r1 := (h2 e1 (hsub.subset he1)).1 hk1
      have r2 := (h2 e2 (hsub.subset he2)).1 hk2
      exact Option.some.inj (r1.symm.trans r2)
    | expiry =>
      have r1 := (h2 e1 (hsub.subset he1)).2 hk1
      have r2 := (h2 e2 (hsub.subset he2)).2 hk2
      exact Option.some.inj (r1.symm.trans r2)
  have := length_le_one_of_nodup_const hnodup hconst
  simpa using this

/-- C7 counterexample: after a successful login the pair is armed, but once
the warning timer fires (at twenty five minutes) the session is still live
and Authenticated while zero warning timers are pending, so a reachable
live state does not always hold exactly one timer of each kind. -/
theorem c7_fired_warning_counterexample :
    Reaches c7AfterWarning ∧
    liveSession c7AfterWarning = true ∧
    c7AfterWarning.auth.isAuthenticated = true ∧
    (pendingOfKind c7AfterWarning .warning).length = 0 ∧
    (pendingOfKind c7AfterWarning .expiry).length = 1 := by
  refine ⟨?_, by decide, by decide, by decide, by decide⟩
  exact Reaches.step 2501000 .warningFire
    (Reaches.step 1000 (.loginEv "a@b.com" "password123" (.ok "h.x.s" demoUser (some 3600)))
      (Reaches.init none 0))

/-- C7 amended: in every reachable client at most one warning timer and at
most one auto logout timer are pending, and an unauthenticated client has
none (immediately after an arming render a live client has exactly one of
each; the warning one is consumed when it fires and is only re armed by the
next activity).  An updateActivity step whose timestamp differs from the
recorded one cancels the prior pair and schedules a fresh warning timer a
full SESSION_TIMEOUT minus WARNING_TIME from the new timestamp and a fresh
auto logout timer a full SESSION_TIMEOUT from it; and logout, logoutSilent
and the unmount cleanup cancel both pending timers. -/
theorem c7_timer_discipline_amended :
    (∀ cs : ClientState, Reaches cs →
      (pendingOfKind cs .warning).length ≤ 1 ∧
      (pendingOfKind cs .expiry).length ≤ 1 ∧
      (cs.auth.isAuthenticated = false → cs.timers = [])) ∧
    (∀ (cs : ClientState) (now : Nat), Reaches cs → liveSession cs = true →
      now ≠ cs.auth.lastActivity →
      ((stepClient now cs .actEv).timers.map (fun e => (e.kind, e.fireAt))) =
        [(.warning, now + (SESSION_TIMEOUT - WARNING_TIME)),
         (.expiry, now + SESSION_TIMEOUT)]) ∧
    (∀ (cs : ClientState) (now : Nat), Reaches cs →
      (applyEv now cs .logoutEv).timers = [] ∧
      (applyEv now cs .logoutSilentEv).timers = [] ∧
      (clearRefTimers cs).timers = []) := by
  refine ⟨?_, ?_, ?_⟩
  · intro cs hr
    have hi := reaches_timerInv hr
    exact ⟨pendingOfKind_le_one cs hi .warning, pendingOfKind_le_one cs hi .expiry,
      hi.2.2.2⟩
  · intro cs now hr hlive hne
    have hi := reaches_timerInv hr
    have hframe : FramePreserved cs (applyEv now cs .actEv) :=
      applyEv_frame now cs .actEv
    have hnil : (clearRefTimers (applyEv now cs .actEv)).timers = [] :=
      clearRefTimers_nil _ (refsCover_frame hi.2.1 hframe)
    unfold stepClient
    rw [if_neg (fun hc => hne hc.2)]
    unfold runEffect
    rw [if_pos (show ((applyEv now cs .actEv).auth.isAuthenticated &&
        (applyEv now cs .actEv).auth.token.isSome) = true from hlive)]
    rw [show ({ clearRefTimers (applyEv now cs .actEv) with
          timers := (clearRefTimers (applyEv now cs .actEv)).timers ++
            [⟨(applyEv now cs .actEv).nextId, .warning,
                now + (SESSION_TIMEOUT - WARNING_TIME)⟩,
             ⟨(applyEv now cs .actEv).nextId + 1, .expiry, now + SESSION_TIMEOUT⟩],
          sessionTimeoutRef := some (applyEv now cs .actEv).nextId,
          activityTimeoutRef := some ((applyEv now cs .actEv).nextId + 1),
          nextId := (applyEv now cs .actEv).nextId + 2 } : ClientState).timers =
        (clearRefTimers (applyEv now cs .actEv)).timers ++
            [⟨(applyEv now cs .actEv).nextId, .warning,
                now + (SESSION_TIMEOUT - WARNING_TIME)⟩,
             ⟨(applyEv now cs .actEv).nextId + 1, .expiry, now + SESSION_TIMEOUT⟩]
      from rfl, hnil]
    rfl
  · intro cs now hr
    have hi := reaches_timerInv hr
    refine ⟨?_, ?_, clearRefTimers_nil cs hi.2.1⟩
    · exact clearRefTimers_nil
        { cs with storedToken := none, attachedAuth := none } hi.2.1
    · exact clearRefTimers_nil
        { cs with storedToken := none, attachedAuth := none } hi.2.1

/-- Witness for C7 amended at the concrete logged in client. -/
theorem c7_timer_discipline_amended_witness :
    (pendingOfKind c7Login .warning).length ≤ 1 ∧
    ((stepClient 2600000 c7Login .actEv).timers.map (fun e => (e.kind, e.fireAt))) =
      [(.warning, 2600000 + (SESSION_TIMEOUT - WARNING_TIME)),
       (.expiry, 2600000 + SESSION_TIMEOUT)] ∧
    (applyEv 7 c7Login .logoutEv).timers = [] := by
  have hreach : Reaches c7Login :=
    Reaches.step 1000 (.loginEv "a@b.com" "password123" (.ok "h.x.s" demoUser (some 3600)))
      (Reaches.init none 0)
  exact ⟨(c7_timer_discipline_amended.1 c7Login hreach).1,
    c7_timer_discipline_amended.2.1 c7Login 2600000 hreach (by decide) (by decide),
    (c7_timer_discipline_amended.2.2 c7Login 7 hreach).1⟩

/-- C9: on a successful login (or registration) whose response declares a
lifetime of 3600 seconds, the recorded sessionExpiry is exactly the
dispatch time plus 3600 seconds in milliseconds (hence within one second
of issuance plus 3600 seconds); with no declared lifetime it is null. -/
theorem c9_session_expiry_from_lifetime (s : AuthState) (now : Nat)
    (tok : String) (u : User) :
    (authReducer now s (.loginSuccess tok u (some 3600))).sessionExpiry =
      some (now + 3600 * 1000) ∧
    (authReducer now s (.loginSuccess tok u none)).sessionExpiry = none ∧
    (authReducer now s (.registerSuccess tok u (some 3600))).sessionExpiry =
      some (now + 3600 * 1000) := by
  refine ⟨?_, rfl, ?_⟩ <;> simp [authReducer, expiryFrom]

/-- C10: with no user loaded, hasRole is false for every role, hasAnyRole
is false for every role list not containing the undefined value, and the
role gating wrapper renders the access denied view for every allowed
list. -/
theorem c10_no_user_no_role (role : String) (roles : List (Option String))
    (h : none ∉ roles) :
    hasRole none role = false ∧ hasAnyRole none roles = false ∧
    (∀ allowed : List (Option String), withRoleAccess allowed none = .accessDenied) := by
  refine ⟨rfl, ?_, fun allowed => rfl⟩
  have key : ∀ l : List (Option String), none ∉ l →
      l.contains (none : Option String) = false := by
    intro l
    induction l with
    | nil => intro _; rfl
    | cons a t ih =>
      intro hl
      simp only [List.mem_cons, not_or] at hl
      have ha : ((none : Option String) == a) = false := by
        cases a with
        | none => exact absurd rfl hl.1
        | some v => rfl
      rw [List.contains_cons, ha, ih hl.2]
      rfl
  simpa [hasAnyRole] using key roles h

/-- Witness for C10 at concrete inputs. -/
theorem c10_no_user_no_role_witness :
    hasRole none "admin" = false ∧
    hasAnyRole none [some "admin", some "doctor"] = false ∧
    withRoleAccess [some "admin"] none = .accessDenied := by
  have h := c10_no_user_no_role "admin" [some "admin", some "doctor"] (by decide)
  exact ⟨h.1, h.2.1, h.2.2 [some "admin"]⟩

/-- C5 counterexample: the login call with a valid email and the five
character password short passes the local validation, issues the network
request, and can even succeed; it is not rejected locally with a password
length error, contrary to the claim. -/
theorem c5_short_password_counterexample :
    loginValidationError "a@b.com" "short" = none ∧
    loginIssuesRequest "a@b.com" "short" = true ∧
    (loginClient 0 (initClient none 0) "a@b.com" "short"
      (.ok "h.x.s" demoUser none)).2 = true := by
  refine ⟨by decide, by decide, by decide⟩

/-- C5 amended: login validates locally only that both fields are nonempty
and that the email matches the pattern; its outcome never depends on the
password beyond nonemptiness, so no minimum length is enforced there.  The
minimum secret length of eight characters is enforced locally by register,
with the message the source uses. -/
theorem c5_local_validation_amended :
    (∀ email password : String,
      loginIssuesRequest email password =
        (email != "" && password != "" && emailTest email)) ∧
    (∀ email p1 p2 : String, p1 ≠ "" → p2 ≠ "" →
      loginValidationError email p1 = loginValidationError email p2) ∧
    (∀ f : RegisterForm, f.email ≠ "" → f.password ≠ "" → f.firstName ≠ "" →
      f.lastName ≠ "" → f.role ≠ "" → emailTest f.email = true →
      f.password.length < 8 →
      registerValidationError f = some "Password must be at least 8 characters long") := by
  refine ⟨?_, ?_, ?_⟩
  · intro email password
    unfold loginIssuesRequest loginValidationError
    cases hm : emailTest email <;> by_cases he : email = "" <;>
      by_cases hp : password = "" <;> simp [he, hp, hm]
  · intro email p1 p2 h1 h2
    unfold loginValidationError
    simp [h1, h2]
  · intro f he hp hf hl hr hemail hlen
    unfold registerValidationError
    simp [he, hp, hf, hl, hr, hemail, hlen]

/-- Witness for C5 amended at concrete inputs. -/
theorem c5_local_validation_amended_witness :
    loginIssuesRequest "a@b.com" "x" = true ∧
    loginValidationError "a@b.com" "short" = loginValidationError "a@b.com" "longenough" ∧
    registerValidationError ⟨"a@b.com", "short", "Ada", "L", "admin"⟩ =
      some "Password must be at least 8 characters long" := by
  refine ⟨?_, ?_, ?_⟩
  · rw [c5_local_validation_amended.1 "a@b.com" "x"]; decide
  · exact c5_local_validation_amended.2.1 "a@b.com" "short" "longenough"
      (by decide) (by decide)
  · exact c5_local_validation_amended.2.2 ⟨"a@b.com", "short", "Ada", "L", "admin"⟩
      (by decide) (by decide) (by decide) (by decide) (by decide) (by decide) (by decide)

/-- C6 counterexample: from a state whose isInitialized flag is false, the
two logout flavors do not have the same effect on the session fields: the
LOGOUT case sets isInitialized to true while the LOGOUT_SILENT case leaves
it false, so the resulting reducer states differ. -/
theorem c6_logout_silent_counterexample :
    (logoutClient 5 uninitAuthedClient).auth.isInitialized = true ∧
    (logoutSilentClient 5 uninitAuthedClient).auth.isInitialized = false ∧
    (logoutClient 5 uninitAuthedClient).auth ≠ (logoutSilentClient 5 uninitAuthedClient).auth := by
  refine ⟨by decide, by decide, by decide⟩

/-- C6 amended: for every session state, logoutSilent agrees with logout on
every session field except isInitialized (which logout forces to true and
logoutSilent leaves unchanged), on the persisted token, the attached
request credential and the pending timers; and only logout emits the user
facing success notice. -/
theorem c6_logout_silent_amended (now : Nat) (cs : ClientState) :
    (logoutSilentClient now cs).auth.token = (logoutClient now cs).auth.token ∧
    (logoutSilentClient now cs).auth.user = (logoutClient now cs).auth.user ∧
    (logoutSilentClient now cs).auth.isAuthenticated = (logoutClient now cs).auth.isAuthenticated ∧
    (logoutSilentClient now cs).auth.loading = (logoutClient now cs).auth.loading ∧
    (logoutSilentClient now cs).auth.error = (logoutClient now cs).auth.error ∧
    (logoutSilentClient now cs).auth.sessionExpiry = (logoutClient now cs).auth.sessionExpiry ∧
    (logoutSilentClient now cs).auth.lastActivity = (logoutClient now cs).auth.lastActivity ∧
    (logoutSilentClient now cs).storedToken = (logoutClient now cs).storedToken ∧
    (logoutSilentClient now cs).attachedAuth = (logoutClient now cs).attachedAuth ∧
    (logoutSilentClient now cs).timers = (logoutClient now cs).timers ∧
    (logoutClient now cs).auth.isInitialized = true ∧
    (logoutSilentClient now cs).auth.isInitialized = cs.auth.isInitialized ∧
    (logoutClient now cs).toasts = cs.toasts ++ ["Logged out successfully"] ∧
    (logoutSilentClient now cs).toasts = cs.toasts :=
  ⟨rfl, rfl, rfl, rfl, rfl, rfl, rfl, rfl, rfl, rfl, rfl, rfl, rfl, rfl⟩

/-- C2 (code bug): the interceptor guard consults only the response status
and the authenticated flag, never the request url, so a 401 coming back on
the refresh post itself (which travels through the same process wide
interceptor) triggers a further refreshToken call: n successive 401
responses while authenticated trigger n attempts rather than stopping at
one. -/
theorem c2_refresh_recursion_bug :
    interceptorGuard (some 401) true = true ∧
    (∀ n : Nat, refresh401Cascade true n = n) ∧
    refresh401Cascade true 2 = 2 := by
  refine ⟨rfl, ?_, rfl⟩
  intro n
  induction n with
  | zero => rfl
  | succ k ih => simp [refresh401Cascade, interceptorGuard, ih]

/-- C8 (code bug): a refreshToken call resolving successfully after logout
has cleared the session checks nothing before applying its result: it
re-persists and re-attaches the fresh token and writes it into the session
state (isAuthenticated however stays false, since TOKEN_REFRESH does not
set it), so the cleared credential slots are resurrected. -/
theorem c8_stale_refresh_resurrects_token :
    c8AfterLogout.auth.token = none ∧
    c8AfterLogout.storedToken = none ∧
    c8AfterLogout.attachedAuth = none ∧
    c8AfterLogout.auth.isAuthenticated = false ∧
    (refreshTokenClient 20 c8AfterLogout (.ok "x.y.z" none)).2 = true ∧
    (refreshTokenClient 20 c8AfterLogout (.ok "x.y.z" none)).1.auth.token = some "x.y.z" ∧
    (refreshTokenClient 20 c8AfterLogout (.ok "x.y.z" none)).1.storedToken = some "x.y.z" ∧
    (refreshTokenClient 20 c8AfterLogout (.ok "x.y.z" none)).1.attachedAuth = some "x.y.z" ∧
    (refreshTokenClient 20 c8AfterLogout (.ok "x.y.z" none)).1.auth.isAuthenticated = false := by
  refine ⟨by decide, by decide, by decide, by decide, by decide, by decide, by decide,
    by decide, by decide⟩

/-- C4 (code bug): loadUser with a valid persisted token and a 500 response
dispatches AUTH_ERROR, which nulls the session token and drops
isAuthenticated (the persisted copy and attached header are retained), so
the session is not left in an error state with its token: the state token
is cleared on every failure.  Moreover the explicit 401 cleanup branch of
the catch is unreachable for this request, because validateStatus resolves
every status below 500: a 401 profile response takes the generic path and
does not clear the persisted token either. -/
theorem c4_loaduser_error_paths :
    isTokenValid futureToken 1700000000000 = true ∧
    (loadUserClient 1700000000000 c4Start (.resolved 500 none (some "boom"))).auth.token = none ∧
    (loadUserClient 1700000000000 c4Start (.resolved 500 none (some "boom"))).auth.isAuthenticated = false ∧
    (loadUserClient 1700000000000 c4Start (.resolved 500 none (some "boom"))).auth.error = some "boom" ∧
    (loadUserClient 1700000000000 c4Start (.resolved 500 none (some "boom"))).storedToken = some futureToken ∧
    (loadUserClient 1700000000000 c4Start (.resolved 500 none (some "boom"))).attachedAuth = some futureToken ∧
    (loadUserClient 1700000000000 c4Start .timeoutErr).auth.token = none ∧
    (loadUserClient 1700000000000 c4Start (.resolved 401 none none)).storedToken = some futureToken ∧
    (loadUserClient 1700000000000 c4Start (.resolved 401 none none)).auth.error =
      some "Authentication verification failed" := by
  refine ⟨by decide, by decide, by decide, by decide, by decide, by decide, by decide,
    by decide, by decide⟩

end HMS
